import Mathlib

/-!
Verification of the generalizability/transportability analysis demonstrated in
`3_Epidemiology_Analysis/c_causal_inference/3-generalizability-transportability/1-generalizability.ipynb`.

The notebook arranges a combined dataset (a trial sample `S = 1` and a target
population `S = 0`), calls three estimators from the `zepid` library (`IPSW`,
`GTransportFormula`, `AIPSW`, plus `IPTW` for the observational workflow), and
computes paired-bootstrap confidence intervals by hand.

The bootstrap loops, the IPTW merge step and all model formulas are code of the
notebook and are embedded from it directly.  The estimator internals live in
the external `zepid` library, which is not part of the repository: those are
modelled from the specification's procedure descriptions (sections 4.1-4.4),
with the regression fitting treated as an injected capability (a function from
training data to a prediction function), as the spec's design notes prescribe.

Numbers are rationals; a missing / undefined (NaN) value is `Option.none`, and
the arithmetic on `Option ℚ` propagates `none` the way IEEE NaN propagates,
with division by zero also producing `none`.
-/

/-- One row of the notebook's dataset: `id`, outcome `Y` and treatment `A`
(present only for trial members, hence `Option`), sample-membership flag `S`,
covariates `L`, `W`, `W_sq`, and the optional treatment-weight column `iptw`
added by the observational workflow. -/
structure Record where
  rid : Nat
  Y : Option ℚ
  A : Option ℚ
  S : Nat
  L : ℚ
  W : ℚ
  W_sq : ℚ
  iptw : Option ℚ
deriving DecidableEq

/-- Fallback row used only to make positional lookup total. -/
def blankRecord : Record :=
  { rid := 0, Y := none, A := none, S := 0, L := 0, W := 0, W_sq := 0, iptw := none }

/-- NaN-propagating addition on optional rationals. -/
def oadd : Option ℚ → Option ℚ → Option ℚ
  | some a, some b => some (a + b)
  | _, _ => none

/-- NaN-propagating subtraction on optional rationals. -/
def osub : Option ℚ → Option ℚ → Option ℚ
  | some a, some b => some (a - b)
  | _, _ => none

/-- NaN-propagating multiplication on optional rationals. -/
def omul : Option ℚ → Option ℚ → Option ℚ
  | some a, some b => some (a * b)
  | _, _ => none

/-- NaN-propagating division on optional rationals; division by zero is
undefined (`none`), modelling the divide-by-zero failure mode the spec
describes for degenerate strata. -/
def odiv : Option ℚ → Option ℚ → Option ℚ
  | some a, some b => if b = 0 then none else some (a / b)
  | _, _ => none

/-- NaN-propagating sum of a list of optional rationals. -/
def osum (l : List (Option ℚ)) : Option ℚ :=
  l.foldr oadd (some 0)

/-- Mean of a list of rationals; undefined on the empty list. -/
def omean (l : List ℚ) : Option ℚ :=
  if l.length = 0 then none else some (l.sum / l.length)

/-- The notebook's `df.loc[df['S'] == 1]`: the trial / sample subset. -/
def sampleSubset (ds : List Record) : List Record :=
  ds.filter (fun r => r.S == 1)

/-- The notebook's `df.loc[df['S'] == 0]`: the target-population subset. -/
def targetSubset (ds : List Record) : List Record :=
  ds.filter (fun r => r.S == 0)

/-- The notebook's `df.sample(n=df.shape[0], replace=True)`: a with-replacement
resample of the same size as the input, the random draws supplied by the index
stream `rand` (slot `k` of the resample is row `rand k mod length`). -/
def pandasSample (l : List Record) (rand : Nat → Nat) : List Record :=
  (List.range l.length).map (fun k => l.getD (rand k % l.length) blankRecord)

/-- A point estimate as the estimators report it: risk difference and risk
ratio, either of which may be undefined. -/
structure Estimate where
  riskDifference : Option ℚ
  riskRatio : Option ℚ
deriving DecidableEq

/-- Sample-subset records at treatment level `a` (the stratum the weighted
means run over). -/
def armRecords (ds : List Record) (a : ℚ) : List Record :=
  (sampleSubset ds).filter (fun r => r.A == some a)

/-- Modelled from the spec: the IPSW sampling weight `(1 - p) / p` of a sample
record with predicted sample-membership probability `p`, undefined when `p = 0`
(spec 4.1: divide-by-zero in weight). -/
def ipswSamplingWeight (p : ℚ) : Option ℚ :=
  if p = 0 then none else some ((1 - p) / p)

/-- Modelled from the spec: the full weight of a sample record — the sampling
weight times the auxiliary treatment weight when one is supplied (`useWeights`
is the notebook's `weights='iptw'` argument). -/
def ipswRecordWeight (fitp : Record → ℚ) (useWeights : Bool) (r : Record) : Option ℚ :=
  omul (ipswSamplingWeight (fitp r)) (if useWeights then r.iptw else some 1)

/-- Modelled from the spec: the weighted mean outcome among sample records at
treatment level `a`, undefined when the weight total is zero (in particular
when the stratum is empty). -/
def ipswArmMean (fitp : Record → ℚ) (useWeights : Bool) (ds : List Record) (a : ℚ) :
    Option ℚ :=
  odiv (osum ((armRecords ds a).map (fun r => omul (ipswRecordWeight fitp useWeights r) r.Y)))
       (osum ((armRecords ds a).map (fun r => ipswRecordWeight fitp useWeights r)))

/-- Modelled from the spec: `zepid.causal.generalize.IPSW` (not among the
repository's sources).  `fit` is the injected binary-regression capability: it
is trained on the records it is given and returns the predicted probability of
sample membership.  The procedure fits on ALL records, weights each sample
record by `(1 - p) / p` (times the auxiliary weight), and contrasts the
weighted mean outcomes of the two treatment arms. -/
def IPSW (fit : List Record → Record → ℚ) (useWeights : Bool) (ds : List Record) :
    Estimate :=
  let fitp := fit ds
  { riskDifference := osub (ipswArmMean fitp useWeights ds 1) (ipswArmMean fitp useWeights ds 0)
    riskRatio := odiv (ipswArmMean fitp useWeights ds 1) (ipswArmMean fitp useWeights ds 0) }

/-- Modelled from the spec: `zepid.causal.generalize.GTransportFormula` (not
among the repository's sources).  `ofit` is the injected outcome-regression
capability: trained on the records it is given, it returns a predictor taking
the forced treatment level and a record.  The outcome model is fit on the
sample subset only; the arm risks are means of predictions over the target
subset, once forcing treatment 1 and once forcing treatment 0. -/
def GTransportFormula (ofit : List Record → ℚ → Record → ℚ) (ds : List Record) :
    Estimate :=
  let pred := ofit (sampleSubset ds)
  let r1 := omean ((targetSubset ds).map (pred 1))
  let r0 := omean ((targetSubset ds).map (pred 0))
  { riskDifference := osub r1 r0, riskRatio := odiv r1 r0 }

/-- Modelled from the spec's responsibility sentence for 4.2, which says the
fitted outcome model predicts counterfactual outcomes for every record in the
FULL dataset (sample and target); kept separate so it can be compared with the
procedure, which averages over the target subset only. -/
def GTransportFullPredict (ofit : List Record → ℚ → Record → ℚ) (ds : List Record) :
    Estimate :=
  let pred := ofit (sampleSubset ds)
  let r1 := omean (ds.map (pred 1))
  let r0 := omean (ds.map (pred 0))
  { riskDifference := osub r1 r0, riskRatio := odiv r1 r0 }

/-- Modelled from the spec: the IPSW-weighted residual correction of AIPSW for
arm `a` — observed outcome minus outcome-model prediction, weighted by the
sampling weight, summed over the sample records of the arm. -/
def aipswResidual (fitp : Record → ℚ) (useWeights : Bool) (pred : ℚ → Record → ℚ)
    (ds : List Record) (a : ℚ) : Option ℚ :=
  osum ((armRecords ds a).map
    (fun r => omul (ipswRecordWeight fitp useWeights r) (osub r.Y (some (pred a r)))))

/-- Modelled from the spec: the G-transport standardized prediction of AIPSW
for arm `a` — the mean predicted outcome over target records. -/
def aipswStandardized (pred : ℚ → Record → ℚ) (ds : List Record) (a : ℚ) : Option ℚ :=
  omean ((targetSubset ds).map (pred a))

/-- Modelled from the spec: the augmented arm-level estimate of AIPSW. -/
def aipswArm (fitp : Record → ℚ) (useWeights : Bool) (pred : ℚ → Record → ℚ)
    (ds : List Record) (a : ℚ) : Option ℚ :=
  oadd (aipswResidual fitp useWeights pred ds a) (aipswStandardized pred ds a)

/-- Modelled from the spec: `zepid.causal.generalize.AIPSW` (not among the
repository's sources).  The sampling model is fit on all records, the outcome
model on the sample subset only; the risk difference and risk ratio come from
the two augmented arm-level estimates. -/
def AIPSW (fit : List Record → Record → ℚ) (ofit : List Record → ℚ → Record → ℚ)
    (useWeights : Bool) (ds : List Record) : Estimate :=
  let fitp := fit ds
  let pred := ofit (sampleSubset ds)
  { riskDifference := osub (aipswArm fitp useWeights pred ds 1) (aipswArm fitp useWeights pred ds 0)
    riskRatio := odiv (aipswArm fitp useWeights pred ds 1) (aipswArm fitp useWeights pred ds 0) }

/-- The notebook's paired-bootstrap loop (cells 4, 6 and 8): `B` times, resample
the sample subset and the target subset with replacement at their own sizes,
restack, re-run the estimator on the concatenation and record its risk
difference.  `rand i j k` is draw `k` for subset `j` (0 = sample, 1 = target)
in replicate `i`. -/
def bootstrapLoop (B : Nat) (est : List Record → Estimate)
    (dfss dftp : List Record) (rand : Nat → Nat → Nat → Nat) : List (Option ℚ) :=
  (List.range B).map (fun i =>
    let dfs := pandasSample dfss (rand i 0)
    let dft := pandasSample dftp (rand i 1)
    let dfb := dfs ++ dft
    (est dfb).riskDifference)

/-- `numpy.std(l, ddof)` on a list of rationals, the square root injected:
the root of the sum of squared deviations from the mean divided by
`length - ddof`. -/
def npStd (sqrt : ℚ → ℚ) (ddof : Nat) (l : List ℚ) : ℚ :=
  sqrt ((l.map (fun x => (x - l.sum / l.length) ^ 2)).sum / ((l.length : ℚ) - ddof))

/-- `numpy.std` lifted to NaN-carrying data: undefined when any entry is
undefined or when there are no more than `ddof` entries (the mean of an empty
array and a zero `length - ddof` divisor are both NaN in numpy). -/
def npStdOpt (sqrt : ℚ → ℚ) (ddof : Nat) (l : List (Option ℚ)) : Option ℚ :=
  if l.length ≤ ddof ∨ none ∈ l then none
  else some (npStd sqrt ddof (l.filterMap id))

/-- What a bootstrap cell of the notebook reports: the full-data point
estimate, `se = np.std(rd_bs, ddof=1)` and the two confidence bounds. -/
structure BootSummary where
  pointRD : Option ℚ
  se : Option ℚ
  lcl : Option ℚ
  ucl : Option ℚ
deriving DecidableEq

/-- The notebook's closing lines of each bootstrap cell:
`se = np.std(rd_bs, ddof=1)`, `rd - 1.96*se` and `rd + 1.96*se`. -/
def bootstrapSummary (sqrt : ℚ → ℚ) (rd : Option ℚ) (rd_bs : List (Option ℚ)) :
    BootSummary :=
  let se := npStdOpt sqrt 1 rd_bs
  { pointRD := rd
    se := se
    lcl := osub rd (omul (some (49 / 25)) se)
    ucl := oadd rd (omul (some (49 / 25)) se) }

/-- A whole notebook analysis cell pair: the full-data point estimate
(`estPoint`), then the bootstrap loop with the per-replicate estimator
(`estBoot`, which the IPSW cells configure with a smaller formula), then the
summary lines. -/
def analysisCell (sqrt : ℚ → ℚ) (estPoint estBoot : List Record → Estimate)
    (df : List Record) (B : Nat) (rand : Nat → Nat → Nat → Nat) : BootSummary :=
  let rd := (estPoint df).riskDifference
  let dfss := sampleSubset df
  let dftp := targetSubset df
  bootstrapSummary sqrt rd (bootstrapLoop B estBoot dfss dftp rand)

/-- The notebook's observational-workflow merge step (cell 10, and steps 4-5 of
cells 12 and 15): subset the `S == 1` records, run the injected IPTW capability
on that subset to get one treatment weight per sample record, write them into
the `iptw` column, and re-concatenate with the `S == 0` records.
`iptwFit` stands for `zepid.causal.ipw.IPTW` (not among the repository's
sources): trained on the records it is given, it returns each record's
inverse-probability-of-treatment weight. -/
def iptwMergeStep (iptwFit : List Record → Record → ℚ) (df : List Record) :
    List Record :=
  let dfs := sampleSubset df
  let dfsW := dfs.map (fun r => { r with iptw := some (iptwFit dfs r) })
  dfsW ++ targetSubset df

/-- The notebook's observational bootstrap loop (cells 12 and 15): per
replicate, resample both subsets, restack, recompute IPTW fresh on the
replicate's own sample subset, merge the new weights back, and run the
estimator on the merged data. -/
def obsBootstrapLoop (B : Nat) (iptwFit : List Record → Record → ℚ)
    (est : List Record → Estimate) (dfss dftp : List Record)
    (rand : Nat → Nat → Nat → Nat) : List (Option ℚ) :=
  (List.range B).map (fun i =>
    let dfs := pandasSample dfss (rand i 0)
    let dft := pandasSample dftp (rand i 1)
    let dfb := dfs ++ dft
    (est (iptwMergeStep iptwFit dfb)).riskDifference)

/-- The notebook's observational point-estimate workflow: the IPTW merge step
runs first, then the estimator consumes the merged dataset. -/
def obsPointEstimate (iptwFit : List Record → Record → ℚ)
    (est : List Record → Estimate) (df : List Record) : Estimate :=
  est (iptwMergeStep iptwFit df)

/-- A patsy-style formula as the list of its terms, each term the list of the
factors it multiplies (`L:W` is `["L", "W"]`). -/
def designRow (f : List (List String)) (env : String → ℚ) : List ℚ :=
  f.map (fun t => (t.map env).prod)

/-- Cell 3: `ipsw.regression_models('L + W + W_sq + L:W + L:W_sq')`. -/
def ipswPointFormula : List (List String) :=
  [["L"], ["W"], ["W_sq"], ["L", "W"], ["L", "W_sq"]]

/-- Cell 4 (bootstrap loop): `ipsw.regression_models('L + W + L:W')`. -/
def ipswBootFormula : List (List String) :=
  [["L"], ["W"], ["L", "W"]]

/-- Cell 11 (observational point estimate):
`ipsw.regression_models('L + W + W_sq + L:W + L:W_sq')`. -/
def obsIpswPointFormula : List (List String) :=
  [["L"], ["W"], ["W_sq"], ["L", "W"], ["L", "W_sq"]]

/-- Cell 12 (observational bootstrap loop):
`ipsw.regression_models('L + W + L:W')`. -/
def obsIpswBootFormula : List (List String) :=
  [["L"], ["W"], ["L", "W"]]

/-- Cell 5: `gtf.outcome_model('A + L + W + W_sq + A:L + A:W + A:W_sq')`. -/
def gtfPointFormula : List (List String) :=
  [["A"], ["L"], ["W"], ["W_sq"], ["A", "L"], ["A", "W"], ["A", "W_sq"]]

/-- Cell 6 (bootstrap loop):
`gtf.outcome_model('A + L + W + W_sq + A:L + A:W + A:W_sq')`. -/
def gtfBootFormula : List (List String) :=
  [["A"], ["L"], ["W"], ["W_sq"], ["A", "L"], ["A", "W"], ["A", "W_sq"]]

/-- Cell 7: `aipw.weight_model('L + W + W_sq + L:W + L:W_sq')`. -/
def aipswPointWeightFormula : List (List String) :=
  [["L"], ["W"], ["W_sq"], ["L", "W"], ["L", "W_sq"]]

/-- Cell 8 (bootstrap loop): `aipw.weight_model('L + W + W_sq + L:W + L:W_sq')`. -/
def aipswBootWeightFormula : List (List String) :=
  [["L"], ["W"], ["W_sq"], ["L", "W"], ["L", "W_sq"]]

/-- Cell 7: `aipw.outcome_model('A + L + W + W_sq + A:L + A:W + A:W_sq')`. -/
def aipswPointOutcomeFormula : List (List String) :=
  [["A"], ["L"], ["W"], ["W_sq"], ["A", "L"], ["A", "W"], ["A", "W_sq"]]

/-- Cell 8 (bootstrap loop):
`aipw.outcome_model('A + L + W + W_sq + A:L + A:W + A:W_sq')`. -/
def aipswBootOutcomeFormula : List (List String) :=
  [["A"], ["L"], ["W"], ["W_sq"], ["A", "L"], ["A", "W"], ["A", "W_sq"]]

/-- Cell 14 (observational point estimate):
`aipw.weight_model('L + W + W_sq + L:W + L:W_sq')`. -/
def obsAipswPointWeightFormula : List (List String) :=
  [["L"], ["W"], ["W_sq"], ["L", "W"], ["L", "W_sq"]]

/-- Cell 15 (observational bootstrap loop):
`aipw.weight_model('L + W + W_sq + L:W + L:W_sq')`. -/
def obsAipswBootWeightFormula : List (List String) :=
  [["L"], ["W"], ["W_sq"], ["L", "W"], ["L", "W_sq"]]

/-- Cell 14 (observational point estimate):
`aipw.outcome_model('A + L + W + W_sq + A:L')`. -/
def obsAipswPointOutcomeFormula : List (List String) :=
  [["A"], ["L"], ["W"], ["W_sq"], ["A", "L"]]

/-- Cell 15 (observational bootstrap loop):
`aipw.outcome_model('A + L + W + W_sq + A:L')`. -/
def obsAipswBootOutcomeFormula : List (List String) :=
  [["A"], ["L"], ["W"], ["W_sq"], ["A", "L"]]

/-! ### Helper lemmas -/

/-- A with-replacement resample has the size of the list it is drawn from. -/
theorem pandasSample_length (l : List Record) (f : Nat → Nat) :
    (pandasSample l f).length = l.length := by
  simp [pandasSample]

/-- Every row of a with-replacement resample is a row of the list it is drawn
from. -/
theorem pandasSample_subset (l : List Record) (f : Nat → Nat) :
    pandasSample l f ⊆ l := by
  intro r hr
  simp only [pandasSample, List.mem_map, List.mem_range] at hr
  obtain ⟨k, hk, rfl⟩ := hr
  have hlen : 0 < l.length := Nat.pos_of_ne_zero (by intro h; omega)
  have hlt : f k % l.length < l.length := Nat.mod_lt _ hlen
  rw [List.getD_eq_getElem l blankRecord hlt]
  exact List.getElem_mem hlt

/-- The bootstrap loop records exactly `B` replicates. -/
theorem bootstrapLoop_length (B : Nat) (est : List Record → Estimate)
    (dfss dftp : List Record) (rand : Nat → Nat → Nat → Nat) :
    (bootstrapLoop B est dfss dftp rand).length = B := by
  simp [bootstrapLoop]

/-- Replicate `i` of the bootstrap loop is the estimator's risk difference on
the concatenation of the two resamples drawn for that replicate. -/
theorem bootstrapLoop_getElem (B : Nat) (est : List Record → Estimate)
    (dfss dftp : List Record) (rand : Nat → Nat → Nat → Nat) (i : Nat) (hi : i < B) :
    (bootstrapLoop B est dfss dftp rand)[i]? =
      some ((est (pandasSample dfss (rand i 0) ++ pandasSample dftp (rand i 1))).riskDifference) := by
  simp [bootstrapLoop, List.getElem?_map, List.getElem?_range, hi]

/-- Replicate `i` of the observational bootstrap loop is the estimator's risk
difference on the merged (freshly IPTW-weighted) concatenation of that
replicate's two resamples. -/
theorem obsBootstrapLoop_getElem (B : Nat) (iptwFit : List Record → Record → ℚ)
    (est : List Record → Estimate) (dfss dftp : List Record)
    (rand : Nat → Nat → Nat → Nat) (i : Nat) (hi : i < B) :
    (obsBootstrapLoop B iptwFit est dfss dftp rand)[i]? =
      some ((est (iptwMergeStep iptwFit
        (pandasSample dfss (rand i 0) ++ pandasSample dftp (rand i 1)))).riskDifference) := by
  simp [obsBootstrapLoop, List.getElem?_map, List.getElem?_range, hi]

/-- Filtering `S == 1` distributes over restacking. -/
theorem sampleSubset_append (a b : List Record) :
    sampleSubset (a ++ b) = sampleSubset a ++ sampleSubset b := by
  simp [sampleSubset, List.filter_append]

/-- Filtering `S == 0` distributes over restacking. -/
theorem targetSubset_append (a b : List Record) :
    targetSubset (a ++ b) = targetSubset a ++ targetSubset b := by
  simp [targetSubset, List.filter_append]

/-- The sample subset of the target subset is empty. -/
theorem sampleSubset_targetSubset (df : List Record) :
    sampleSubset (targetSubset df) = [] := by
  unfold sampleSubset targetSubset
  refine List.filter_eq_nil_iff.mpr ?_
  intro r hr
  have h0 := (List.mem_filter.mp hr).2
  simp only [beq_iff_eq] at h0 ⊢
  omega

/-- The target subset of the sample subset is empty. -/
theorem targetSubset_sampleSubset (df : List Record) :
    targetSubset (sampleSubset df) = [] := by
  unfold sampleSubset targetSubset
  refine List.filter_eq_nil_iff.mpr ?_
  intro r hr
  have h0 := (List.mem_filter.mp hr).2
  simp only [beq_iff_eq] at h0 ⊢
  omega

/-- Taking the sample subset twice is taking it once. -/
theorem sampleSubset_idem (l : List Record) :
    sampleSubset (sampleSubset l) = sampleSubset l := by
  unfold sampleSubset
  rw [List.filter_filter]
  simp

/-- Taking the target subset twice is taking it once. -/
theorem targetSubset_idem (l : List Record) :
    targetSubset (targetSubset l) = targetSubset l := by
  unfold targetSubset
  rw [List.filter_filter]
  simp

/-- Writing the `iptw` column commutes with taking the sample subset, because
it does not touch the sample-membership flag. -/
theorem sampleSubset_map_iptw (l : List Record) (w : Record → ℚ) :
    sampleSubset (l.map (fun r => { r with iptw := some (w r) })) =
      (sampleSubset l).map (fun r => { r with iptw := some (w r) }) := by
  unfold sampleSubset
  rw [List.filter_map]
  rfl

/-- Writing the `iptw` column commutes with taking the target subset. -/
theorem targetSubset_map_iptw (l : List Record) (w : Record → ℚ) :
    targetSubset (l.map (fun r => { r with iptw := some (w r) })) =
      (targetSubset l).map (fun r => { r with iptw := some (w r) }) := by
  unfold targetSubset
  rw [List.filter_map]
  rfl

/-- The sample subset of the merged dataset is exactly the weighted copy of the
original sample subset: one fresh IPTW weight per sample record, computed from
the sample subset alone. -/
theorem sampleSubset_iptwMergeStep (iptwFit : List Record → Record → ℚ)
    (df : List Record) :
    sampleSubset (iptwMergeStep iptwFit df) =
      (sampleSubset df).map
        (fun r => { r with iptw := some (iptwFit (sampleSubset df) r) }) := by
  unfold iptwMergeStep
  rw [sampleSubset_append, sampleSubset_targetSubset, List.append_nil,
      sampleSubset_map_iptw, sampleSubset_idem]

/-- The merge step leaves the target subset untouched. -/
theorem targetSubset_iptwMergeStep (iptwFit : List Record → Record → ℚ)
    (df : List Record) :
    targetSubset (iptwMergeStep iptwFit df) = targetSubset df := by
  unfold iptwMergeStep
  rw [targetSubset_append, targetSubset_map_iptw, targetSubset_sampleSubset,
      targetSubset_idem]
  simp

/-- Subtraction propagates an undefined left operand. -/
theorem osub_none_left (a : Option ℚ) : osub none a = none := by
  cases a <;> rfl

/-- Subtraction propagates an undefined right operand. -/
theorem osub_none_right (a : Option ℚ) : osub a none = none := by
  cases a <;> rfl

/-- Addition propagates an undefined right operand. -/
theorem oadd_none_right (a : Option ℚ) : oadd a none = none := by
  cases a <;> rfl

/-- Multiplication propagates an undefined right operand. -/
theorem omul_none_right (a : Option ℚ) : omul a none = none := by
  cases a <;> rfl

/-- Wrapping every entry and then dropping the wrappers is the identity. -/
theorem filterMap_id_map_some (l : List ℚ) : (l.map some).filterMap id = l := by
  induction l with
  | nil => rfl
  | cons a t ih => simp [ih]

/-- `numpy.std` depends only on the multiset of its entries: a permutation of
the list leaves it unchanged. -/
theorem npStd_perm (sqrt : ℚ → ℚ) (d : Nat) (l l' : List ℚ) (h : l.Perm l') :
    npStd sqrt d l = npStd sqrt d l' := by
  unfold npStd
  rw [h.sum_eq, h.length_eq]
  congr 2
  exact (h.map _).sum_eq

/-- The NaN-aware `numpy.std` is likewise permutation-invariant. -/
theorem npStdOpt_perm (sqrt : ℚ → ℚ) (d : Nat) (l l' : List (Option ℚ))
    (h : l.Perm l') :
    npStdOpt sqrt d l = npStdOpt sqrt d l' := by
  unfold npStdOpt
  rw [h.length_eq, npStd_perm sqrt d _ _ (h.filterMap id)]
  by_cases hn : none ∈ l
  · simp [hn, h.mem_iff.mp hn]
  · have hn' : ¬ none ∈ l' := fun hx => hn (h.mem_iff.mpr hx)
    simp [hn, hn']

/-- An undefined replicate poisons the standard deviation. -/
theorem npStdOpt_none_mem (sqrt : ℚ → ℚ) (d : Nat) (l : List (Option ℚ))
    (h : none ∈ l) : npStdOpt sqrt d l = none := by
  unfold npStdOpt
  simp [h]

/-- If a treatment arm has no sample records, the IPSW risk difference is
undefined (the weighted mean divides by a zero weight total). -/
theorem ipsw_rd_none_of_arm1_empty (fit : List Record → Record → ℚ)
    (useWeights : Bool) (ds : List Record) (hA : armRecords ds 1 = []) :
    (IPSW fit useWeights ds).riskDifference = none := by
  show osub (ipswArmMean (fit ds) useWeights ds 1) (ipswArmMean (fit ds) useWeights ds 0) = none
  unfold ipswArmMean
  rw [hA]
  simp only [List.map_nil]
  rw [show osum [] = some 0 from rfl]
  rw [show odiv (some 0) (some 0) = none by simp [odiv]]
  exact osub_none_left _

/-- If the treatment-0 arm has no sample records, the IPSW risk difference is
likewise undefined. -/
theorem ipsw_rd_none_of_arm0_empty (fit : List Record → Record → ℚ)
    (useWeights : Bool) (ds : List Record) (hA : armRecords ds 0 = []) :
    (IPSW fit useWeights ds).riskDifference = none := by
  show osub (ipswArmMean (fit ds) useWeights ds 1) (ipswArmMean (fit ds) useWeights ds 0) = none
  unfold ipswArmMean
  rw [hA]
  simp only [List.map_nil]
  rw [show osum [] = some 0 from rfl]
  rw [show odiv (some 0) (some 0) = none by simp [odiv]]
  exact osub_none_right _

/-- If either required treatment level has no sample records, the IPSW risk
difference is undefined. -/
theorem ipsw_rd_none_of_arm_empty (fit : List Record → Record → ℚ)
    (useWeights : Bool) (ds : List Record)
    (hA : armRecords ds 1 = [] ∨ armRecords ds 0 = []) :
    (IPSW fit useWeights ds).riskDifference = none :=
  hA.elim (ipsw_rd_none_of_arm1_empty fit useWeights ds)
    (ipsw_rd_none_of_arm0_empty fit useWeights ds)

/-! ### Concrete data for the witness instances -/

/-- A trial row with treatment 1. -/
def exSampleRow : Record :=
  { rid := 1, Y := some 1, A := some 1, S := 1, L := 1, W := 2, W_sq := 4, iptw := some 1 }

/-- A trial row with treatment 0. -/
def exSampleRow0 : Record :=
  { rid := 2, Y := some 0, A := some 0, S := 1, L := 0, W := 1, W_sq := 1, iptw := some 1 }

/-- A target-population row (outcome and treatment structurally missing). -/
def exTargetRow : Record :=
  { rid := 3, Y := none, A := none, S := 0, L := 1, W := 3, W_sq := 9, iptw := none }

/-- A three-row combined dataset. -/
def exDf : List Record := [exSampleRow, exSampleRow0, exTargetRow]

/-- A concrete index stream for the resampling draws. -/
def exRand : Nat → Nat → Nat → Nat := fun _ _ k => k

/-- A concrete injected sampling-model fit. -/
def exFit : List Record → Record → ℚ := fun _ _ => 1 / 2

/-- A concrete injected outcome-model fit (prediction `a * L`). -/
def exOfit : List Record → ℚ → Record → ℚ := fun _ a r => a * r.L

/-- A concrete injected IPTW capability. -/
def exIptwFit : List Record → Record → ℚ := fun _ r => r.W

/-! ### The claims -/

/-- Claim C1: each of the `B` bootstrap replicates is produced by drawing a
with-replacement resample of the sample subset of the sample subset's size,
independently drawing a with-replacement resample of the target subset of the
target subset's size, concatenating the two, re-running the estimator on the
concatenation, and recording its risk difference. -/
theorem c1_bootstrap_paired_resampling (B : Nat) (est : List Record → Estimate)
    (df : List Record) (rand : Nat → Nat → Nat → Nat) (i : Nat) (hi : i < B) :
    (bootstrapLoop B est (sampleSubset df) (targetSubset df) rand).length = B ∧
    (bootstrapLoop B est (sampleSubset df) (targetSubset df) rand)[i]? =
      some ((est (pandasSample (sampleSubset df) (rand i 0) ++
                  pandasSample (targetSubset df) (rand i 1))).riskDifference) ∧
    (pandasSample (sampleSubset df) (rand i 0)).length = (sampleSubset df).length ∧
    (pandasSample (targetSubset df) (rand i 1)).length = (targetSubset df).length ∧
    pandasSample (sampleSubset df) (rand i 0) ⊆ sampleSubset df ∧
    pandasSample (targetSubset df) (rand i 1) ⊆ targetSubset df :=
  ⟨bootstrapLoop_length _ _ _ _ _,
   bootstrapLoop_getElem _ _ _ _ _ _ hi,
   pandasSample_length _ _, pandasSample_length _ _,
   pandasSample_subset _ _, pandasSample_subset _ _⟩

/-- Concrete instance of claim C1 at a three-row dataset, replicate 1 of 2,
with the IPSW estimator. -/
theorem c1_bootstrap_paired_resampling_witness :
    (bootstrapLoop 2 (IPSW exFit false) (sampleSubset exDf) (targetSubset exDf) exRand)[1]? =
      some ((IPSW exFit false (pandasSample (sampleSubset exDf) (exRand 1 0) ++
              pandasSample (targetSubset exDf) (exRand 1 1))).riskDifference) :=
  (c1_bootstrap_paired_resampling 2 (IPSW exFit false) exDf exRand 1 (by decide)).2.1

/-- Claim C2: for a completed run (at least two replicates, none undefined) the
reported standard error is the standard deviation of the recorded risk
differences with the unbiased `n - 1` divisor, and the 95% bounds are the
point estimate minus and plus 1.96 times that standard deviation. -/
theorem c2_bootstrap_summary_normal_approx (sqrt : ℚ → ℚ) (rd : ℚ) (l : List ℚ)
    (h2 : 2 ≤ l.length) :
    bootstrapSummary sqrt (some rd) (l.map some) =
      { pointRD := some rd
        se := some (sqrt ((l.map (fun x => (x - l.sum / l.length) ^ 2)).sum /
                ((l.length : ℚ) - 1)))
        lcl := some (rd - 49 / 25 * sqrt ((l.map (fun x => (x - l.sum / l.length) ^ 2)).sum /
                ((l.length : ℚ) - 1)))
        ucl := some (rd + 49 / 25 * sqrt ((l.map (fun x => (x - l.sum / l.length) ^ 2)).sum /
                ((l.length : ℚ) - 1))) } := by
  have hguard : ¬((l.map some).length ≤ 1 ∨ none ∈ l.map some) := by
    rintro (hle | hmem)
    · rw [List.length_map] at hle; omega
    · simp at hmem
  have hse : npStdOpt sqrt 1 (l.map some) =
      some (sqrt ((l.map (fun x => (x - l.sum / l.length) ^ 2)).sum /
        ((l.length : ℚ) - 1))) := by
    unfold npStdOpt
    rw [if_neg hguard, filterMap_id_map_some]
    unfold npStd
    norm_num
  unfold bootstrapSummary
  rw [hse]
  simp [osub, omul, oadd]

/-- The replicate list used by the concrete instance of claim C2. -/
def c2list : List ℚ := [4, 2, 0]

/-- Concrete instance of claim C2 at three replicates. -/
theorem c2_bootstrap_summary_normal_approx_witness :
    bootstrapSummary id (some 1) (c2list.map some) =
      { pointRD := some 1
        se := some (id ((c2list.map (fun x => (x - c2list.sum / c2list.length) ^ 2)).sum /
                ((c2list.length : ℚ) - 1)))
        lcl := some (1 - 49 / 25 * id ((c2list.map (fun x => (x - c2list.sum / c2list.length) ^ 2)).sum /
                ((c2list.length : ℚ) - 1)))
        ucl := some (1 + 49 / 25 * id ((c2list.map (fun x => (x - c2list.sum / c2list.length) ^ 2)).sum /
                ((c2list.length : ℚ) - 1))) } :=
  c2_bootstrap_summary_normal_approx id 1 c2list (by decide)

/-- Claim C3: in the observational workflow the IPTW step runs before IPSW or
AIPSW, is trained on sample-subset records only, and its per-record weights are
merged back as the `iptw` column those estimators consume (they are called with
the weight flag set); within each bootstrap replicate the treatment weights are
recomputed fresh on that replicate's resampled sample subset before the
estimator runs. -/
theorem c3_observational_iptw_workflow (iptwFit fit : List Record → Record → ℚ)
    (ofit : List Record → ℚ → Record → ℚ) (df : List Record) (B : Nat)
    (rand : Nat → Nat → Nat → Nat) (i : Nat) (hi : i < B) :
    obsPointEstimate iptwFit (IPSW fit true) df =
      IPSW fit true (iptwMergeStep iptwFit df) ∧
    obsPointEstimate iptwFit (AIPSW fit ofit true) df =
      AIPSW fit ofit true (iptwMergeStep iptwFit df) ∧
    sampleSubset (iptwMergeStep iptwFit df) =
      (sampleSubset df).map
        (fun r => { r with iptw := some (iptwFit (sampleSubset df) r) }) ∧
    targetSubset (iptwMergeStep iptwFit df) = targetSubset df ∧
    (obsBootstrapLoop B iptwFit (IPSW fit true) (sampleSubset df) (targetSubset df) rand)[i]? =
      some ((IPSW fit true (iptwMergeStep iptwFit
        (pandasSample (sampleSubset df) (rand i 0) ++
         pandasSample (targetSubset df) (rand i 1)))).riskDifference) ∧
    (obsBootstrapLoop B iptwFit (AIPSW fit ofit true) (sampleSubset df) (targetSubset df) rand)[i]? =
      some ((AIPSW fit ofit true (iptwMergeStep iptwFit
        (pandasSample (sampleSubset df) (rand i 0) ++
         pandasSample (targetSubset df) (rand i 1)))).riskDifference) :=
  ⟨rfl, rfl, sampleSubset_iptwMergeStep _ _, targetSubset_iptwMergeStep _ _,
   obsBootstrapLoop_getElem _ _ _ _ _ _ _ hi,
   obsBootstrapLoop_getElem _ _ _ _ _ _ _ hi⟩

/-- Concrete instance of claim C3: the merged dataset's sample subset is the
original sample subset with one fresh IPTW weight written into each record. -/
theorem c3_observational_iptw_workflow_witness :
    sampleSubset (iptwMergeStep exIptwFit exDf) =
      (sampleSubset exDf).map
        (fun r => { r with iptw := some (exIptwFit (sampleSubset exDf) r) }) :=
  (c3_observational_iptw_workflow exIptwFit exFit exOfit exDf 1 exRand 0 (by decide)).2.2.1

/-- Claim C4: a resample with zero sample records at either required treatment
level (1 or 0) makes the IPSW point estimate undefined, the undefined replicate
is kept at its slot in the recorded list (which still has all B entries), and
the downstream standard error and both confidence bounds are undefined in turn
rather than masked. -/
theorem c4_nan_propagation (sqrt : ℚ → ℚ) (fit : List Record → Record → ℚ)
    (useWeights : Bool) (dfss dftp : List Record) (rand : Nat → Nat → Nat → Nat)
    (B i : Nat) (rd : Option ℚ) (hi : i < B)
    (hA : armRecords (pandasSample dfss (rand i 0) ++ pandasSample dftp (rand i 1)) 1 = [] ∨
          armRecords (pandasSample dfss (rand i 0) ++ pandasSample dftp (rand i 1)) 0 = []) :
    (IPSW fit useWeights (pandasSample dfss (rand i 0) ++
        pandasSample dftp (rand i 1))).riskDifference = none ∧
    (bootstrapLoop B (IPSW fit useWeights) dfss dftp rand).length = B ∧
    (bootstrapLoop B (IPSW fit useWeights) dfss dftp rand)[i]? = some none ∧
    none ∈ bootstrapLoop B (IPSW fit useWeights) dfss dftp rand ∧
    npStdOpt sqrt 1 (bootstrapLoop B (IPSW fit useWeights) dfss dftp rand) = none ∧
    (bootstrapSummary sqrt rd (bootstrapLoop B (IPSW fit useWeights) dfss dftp rand)).se = none ∧
    (bootstrapSummary sqrt rd (bootstrapLoop B (IPSW fit useWeights) dfss dftp rand)).lcl = none ∧
    (bootstrapSummary sqrt rd (bootstrapLoop B (IPSW fit useWeights) dfss dftp rand)).ucl = none := by
  have h1 : (IPSW fit useWeights (pandasSample dfss (rand i 0) ++
      pandasSample dftp (rand i 1))).riskDifference = none :=
    ipsw_rd_none_of_arm_empty _ _ _ hA
  have h2 : (bootstrapLoop B (IPSW fit useWeights) dfss dftp rand)[i]? = some none := by
    rw [bootstrapLoop_getElem _ _ _ _ _ _ hi, h1]
  have hmem : none ∈ bootstrapLoop B (IPSW fit useWeights) dfss dftp rand := by
    have := List.getElem?_eq_some.mp h2
    obtain ⟨hlt, hget⟩ := this
    rw [← hget]
    exact List.getElem_mem hlt
  have hstd : npStdOpt sqrt 1 (bootstrapLoop B (IPSW fit useWeights) dfss dftp rand) = none :=
    npStdOpt_none_mem _ _ _ hmem
  refine ⟨h1, bootstrapLoop_length _ _ _ _ _, h2, hmem, hstd, hstd, ?_, ?_⟩
  · show osub rd (omul (some (49 / 25))
      (npStdOpt sqrt 1 (bootstrapLoop B (IPSW fit useWeights) dfss dftp rand))) = none
    rw [hstd, omul_none_right, osub_none_right]
  · show oadd rd (omul (some (49 / 25))
      (npStdOpt sqrt 1 (bootstrapLoop B (IPSW fit useWeights) dfss dftp rand))) = none
    rw [hstd, omul_none_right, oadd_none_right]

/-- Concrete instance of claim C4, exercising the treatment-0-empty side: one
replicate over a one-row sample subset whose only record has treatment 1, so
treatment level 0 is empty and the reported standard error is undefined. -/
theorem c4_nan_propagation_witness :
    npStdOpt id 1 (bootstrapLoop 1 (IPSW exFit false) [exSampleRow] [] exRand) = none :=
  (c4_nan_propagation id exFit false [exSampleRow] [] exRand 1 0 (some 0)
    (by decide) (Or.inr (by decide))).2.2.2.2.1

/-- Claim C5: IPSW fits the sample-membership model on ALL records (the
predictor is `fit ds`, trained on the whole combined dataset), gives each
sample record the weight `(1 - p) / p` times the auxiliary treatment weight
when one is supplied, and reports the weighted mean outcome among sample
records with treatment 1 minus (risk difference) or divided by (risk ratio)
the weighted mean among those with treatment 0. -/
theorem c5_ipsw_procedure (fit : List Record → Record → ℚ) (useWeights : Bool)
    (ds : List Record) :
    (∀ r : Record, ipswRecordWeight (fit ds) useWeights r =
      omul (if fit ds r = 0 then none else some ((1 - fit ds r) / fit ds r))
           (if useWeights then r.iptw else some 1)) ∧
    (∀ a : ℚ, ipswArmMean (fit ds) useWeights ds a =
      odiv (osum (((sampleSubset ds).filter (fun r => r.A == some a)).map
              (fun r => omul (ipswRecordWeight (fit ds) useWeights r) r.Y)))
           (osum (((sampleSubset ds).filter (fun r => r.A == some a)).map
              (fun r => ipswRecordWeight (fit ds) useWeights r)))) ∧
    (IPSW fit useWeights ds).riskDifference =
      osub (ipswArmMean (fit ds) useWeights ds 1) (ipswArmMean (fit ds) useWeights ds 0) ∧
    (IPSW fit useWeights ds).riskRatio =
      odiv (ipswArmMean (fit ds) useWeights ds 1) (ipswArmMean (fit ds) useWeights ds 0) :=
  ⟨fun _ => rfl, fun _ => rfl, rfl, rfl⟩

/-- On the three-row example dataset, standardizing over the full dataset (the
spec's responsibility sentence) gives a different estimate than standardizing
over the target subset (the spec's procedure). -/
theorem gtransport_full_ne_target :
    GTransportFullPredict exOfit exDf ≠ GTransportFormula exOfit exDf := by
  have h1 : (GTransportFormula exOfit exDf).riskDifference = some 1 := by
    simp [GTransportFormula, exOfit, exDf, targetSubset, sampleSubset, omean, osub,
      exSampleRow, exSampleRow0, exTargetRow]
  have h2 : (GTransportFullPredict exOfit exDf).riskDifference = some (2 / 3) := by
    simp [GTransportFullPredict, exOfit, exDf, targetSubset, sampleSubset, omean, osub,
      exSampleRow, exSampleRow0, exTargetRow]
    norm_num
  intro h
  rw [h, h1] at h2
  norm_num at h2

/-- Claim C6: the G-transport estimator fits the outcome model on sample-subset
records only, predicts for every target-subset record under forced treatment 1
and forced treatment 0, and takes each arm's risk as the mean of those
predictions over the target subset; the spec's responsibility sentence (mean
over the FULL dataset) describes a different function, exhibited at a concrete
dataset. -/
theorem c6_gtransport_procedure (ofit : List Record → ℚ → Record → ℚ)
    (ds : List Record) :
    (GTransportFormula ofit ds).riskDifference =
      osub (omean ((targetSubset ds).map (ofit (sampleSubset ds) 1)))
           (omean ((targetSubset ds).map (ofit (sampleSubset ds) 0))) ∧
    (GTransportFormula ofit ds).riskRatio =
      odiv (omean ((targetSubset ds).map (ofit (sampleSubset ds) 1)))
           (omean ((targetSubset ds).map (ofit (sampleSubset ds) 0))) ∧
    GTransportFullPredict exOfit exDf ≠ GTransportFormula exOfit exDf :=
  ⟨rfl, rfl, gtransport_full_ne_target⟩

/-- Claim C7: each AIPSW arm estimate is the IPSW-weighted residual correction
(observed outcome minus outcome-model prediction, weighted by the sampling
weight, summed over the arm's sample records) plus the G-transport standardized
prediction (mean predicted outcome over target records), and the risk
difference and risk ratio come from the two augmented arm estimates. -/
theorem c7_aipsw_procedure (fit : List Record → Record → ℚ)
    (ofit : List Record → ℚ → Record → ℚ) (useWeights : Bool) (ds : List Record) :
    (∀ a : ℚ, aipswArm (fit ds) useWeights (ofit (sampleSubset ds)) ds a =
      oadd (aipswResidual (fit ds) useWeights (ofit (sampleSubset ds)) ds a)
           (aipswStandardized (ofit (sampleSubset ds)) ds a)) ∧
    (∀ a : ℚ, aipswResidual (fit ds) useWeights (ofit (sampleSubset ds)) ds a =
      osum ((armRecords ds a).map (fun r =>
        omul (ipswRecordWeight (fit ds) useWeights r)
             (osub r.Y (some (ofit (sampleSubset ds) a r)))))) ∧
    (∀ a : ℚ, aipswStandardized (ofit (sampleSubset ds)) ds a =
      omean ((targetSubset ds).map (ofit (sampleSubset ds) a))) ∧
    (AIPSW fit ofit useWeights ds).riskDifference =
      osub (aipswArm (fit ds) useWeights (ofit (sampleSubset ds)) ds 1)
           (aipswArm (fit ds) useWeights (ofit (sampleSubset ds)) ds 0) ∧
    (AIPSW fit ofit useWeights ds).riskRatio =
      odiv (aipswArm (fit ds) useWeights (ofit (sampleSubset ds)) ds 1)
           (aipswArm (fit ds) useWeights (ofit (sampleSubset ds)) ds 0) :=
  ⟨fun _ => rfl, fun _ => rfl, fun _ => rfl, rfl, rfl⟩

/-- Claim C8: the point-estimate computation has no random component — the
full-data risk difference an analysis cell reports is the same whatever index
stream drives the resampling, for IPSW, G-transport and AIPSW alike, so two
runs on identical input agree exactly. -/
theorem c8_point_estimates_deterministic (sqrt : ℚ → ℚ)
    (fit : List Record → Record → ℚ) (ofit : List Record → ℚ → Record → ℚ)
    (useWeights : Bool) (estBoot : List Record → Estimate) (df : List Record)
    (B : Nat) (rand randB : Nat → Nat → Nat → Nat) :
    (analysisCell sqrt (IPSW fit useWeights) estBoot df B rand).pointRD =
      (analysisCell sqrt (IPSW fit useWeights) estBoot df B randB).pointRD ∧
    (analysisCell sqrt (GTransportFormula ofit) estBoot df B rand).pointRD =
      (analysisCell sqrt (GTransportFormula ofit) estBoot df B randB).pointRD ∧
    (analysisCell sqrt (AIPSW fit ofit useWeights) estBoot df B rand).pointRD =
      (analysisCell sqrt (AIPSW fit ofit useWeights) estBoot df B randB).pointRD :=
  ⟨rfl, rfl, rfl⟩

/-- Claim C9: the bootstrap standard error and the summary built from it depend
only on the multiset of recorded risk differences — any permutation of the
replicate list leaves them unchanged. -/
theorem c9_bootstrap_se_permutation_invariant (sqrt : ℚ → ℚ) (rd : Option ℚ)
    (l lp : List (Option ℚ)) (h : l.Perm lp) :
    npStdOpt sqrt 1 l = npStdOpt sqrt 1 lp ∧
    bootstrapSummary sqrt rd l = bootstrapSummary sqrt rd lp := by
  have hstd := npStdOpt_perm sqrt 1 l lp h
  refine ⟨hstd, ?_⟩
  unfold bootstrapSummary
  rw [hstd]

/-- Concrete instance of claim C9: a three-element replicate list and a
rotation of it give the same standard error. -/
theorem c9_bootstrap_se_permutation_invariant_witness :
    npStdOpt id 1 [some 1, some 2, some 4] = npStdOpt id 1 [some 4, some 1, some 2] :=
  (c9_bootstrap_se_permutation_invariant id none [some 1, some 2, some 4]
    [some 4, some 1, some 2] (by decide)).1

/-- Claim C10: both IPSW bootstrap loops refit the sampling model with the
reduced formula `L + W + L:W`, omitting the `W_sq` and `L:W_sq` terms of the
full-data point-estimate formula — so the replicate design matrix is not the
one the point estimator uses — whereas the G-transport and AIPSW bootstrap
loops reuse exactly their point-estimate formulas. -/
theorem c10_ipsw_bootstrap_formula_mismatch :
    ipswBootFormula ≠ ipswPointFormula ∧
    obsIpswBootFormula = ipswBootFormula ∧
    obsIpswPointFormula = ipswPointFormula ∧
    ["W_sq"] ∈ ipswPointFormula ∧ ["W_sq"] ∉ ipswBootFormula ∧
    ["L", "W_sq"] ∈ ipswPointFormula ∧ ["L", "W_sq"] ∉ ipswBootFormula ∧
    (∀ env : String → ℚ, designRow ipswPointFormula env ≠ designRow ipswBootFormula env) ∧
    gtfBootFormula = gtfPointFormula ∧
    aipswBootWeightFormula = aipswPointWeightFormula ∧
    aipswBootOutcomeFormula = aipswPointOutcomeFormula ∧
    obsAipswBootWeightFormula = obsAipswPointWeightFormula ∧
    obsAipswBootOutcomeFormula = obsAipswPointOutcomeFormula := by
  refine ⟨by decide, rfl, rfl, by decide, by decide, by decide, by decide, ?_,
    rfl, rfl, rfl, rfl, rfl⟩
  intro env h
  have hlen := congrArg List.length h
  simp [designRow, ipswPointFormula, ipswBootFormula] at hlen
